import Mathlib

/-!
Shallow embedding of the product write/read pipeline of the repository
(`src/productRoutes.js`, model `src/unnamed/part_001`, server bootstrap
`src/unnamed/part_000`).

Modelling choices:
* JavaScript numbers used for money are idealised as `ℚ`; the pattern
  `parseFloat(x.toFixed(2))` is modelled as exact rounding to two decimal
  places (`round2`).
* Multipart form fields arrive as strings (or are absent); a request body is
  a record of `Option` fields.  `sellPrice` is carried as the already-parsed
  numeric value (`Option ℚ`): `none` models an absent or non-numeric field,
  matching what `isFloat` rejects.
* The record store (MongoDB via mongoose) is a list of documents in insertion
  order.  `ProductSchema` runs in mongoose's default strict mode, so paths
  assigned by the handlers but not declared in the schema
  (`gstPercentage`, `gstAmount`, `barcode`) are dropped on save; the model
  keeps them as `Option` fields and the save path stores `none` for any path
  not listed in `productSchemaPaths`.
* The object store (S3) is modelled by a trace of attempted operations
  (`S3Event`), each tagged with whether it succeeded; `runS3Events` replays a
  trace against a set of stored keys.  Nondeterministic outcomes (upload /
  delete / record-store save success, `Date.now()`, `Math.random()`, the id
  the store assigns) are supplied by an `Env`.
-/

namespace RestaurantProducts

/-- Rounding to two decimal places: `parseFloat(x.toFixed(2))` idealised over
`ℚ` (`round` is round-half-up, which agrees with `toFixed` on the
non-negative values this code handles). -/
def round2 (q : ℚ) : ℚ := (round (q * 100) : ℤ) / 100

/-- The `.trim()` sanitizer of express-validator: strip leading and trailing
whitespace.  (Structural model of `String.trim`, written over the character
list so that it evaluates by kernel reduction.) -/
def trimStr (s : String) : String :=
  String.mk (((s.data.dropWhile Char.isWhitespace).reverse.dropWhile Char.isWhitespace).reverse)

/-- The closed set accepted by `body('type').isIn([...])`
(src/productRoutes.js line 35) and declared as the schema enum. -/
def productTypes : List String := ["Veg", "Non-Veg", "Beverage", "Starter", "Dessert", "Breads"]

/-- The set accepted by `body('primaryUnit').optional().isIn([...])`
(src/productRoutes.js line 36). -/
def primaryUnits : List String := ["piece", "kg", "gram", ""]

/-- A multipart request body as the handlers see it.  Every field is optional;
`sellPrice` is the parsed numeric value (`none` = absent or not a number). -/
structure ReqBody where
  itemName : Option String
  sellPrice : Option ℚ
  type : Option String
  primaryUnit : Option String
  customUnit : Option String
  gstEnabled : Option String
deriving DecidableEq

/-- The `validateProduct` middleware chain (src/productRoutes.js lines 32-37):
`itemName` trimmed non-empty, `sellPrice` a number ≥ 0, `type` in the closed
set, `primaryUnit` optional but restricted when present.  A validator chain
without `.optional()` fails when the field is absent.  Errors are collected
in middleware order. -/
def validateProduct (b : ReqBody) : List String :=
  (match b.itemName with
   | some s => if trimStr s = "" then ["Item name is required"] else []
   | none => ["Item name is required"]) ++
  (match b.sellPrice with
   | some q => if q < 0 then ["Sell price must be a positive number"] else []
   | none => ["Sell price must be a positive number"]) ++
  (match b.type with
   | some t => if productTypes.contains t then [] else ["Invalid product type"]
   | none => ["Invalid product type"]) ++
  (match b.primaryUnit with
   | some u => if primaryUnits.contains u then [] else ["Invalid value"]
   | none => [])

/-- `gstEnabled === 'true'`: the strict string comparison both handlers use. -/
def gstFlag (gstEnabled : Option String) : Bool := gstEnabled == some "true"

/-- `const gstPercentage = gstEnabled === 'true' ? 5 : 0`. -/
def gstPercentage (gstEnabled : Bool) : ℚ := if gstEnabled then 5 else 0

/-- `gstEnabled === 'true' ? parseFloat((sellPriceFloat * 0.05).toFixed(2)) : 0`. -/
def gstAmount (gstEnabled : Bool) (sellPrice : ℚ) : ℚ :=
  if gstEnabled then round2 (sellPrice * (5 / 100)) else 0

/-- `const totalPrice = parseFloat((sellPriceFloat + gstAmount).toFixed(2))`. -/
def totalPrice (gstEnabled : Bool) (sellPrice : ℚ) : ℚ :=
  round2 (sellPrice + gstAmount gstEnabled sellPrice)

/-- A file accepted by `multer` memory storage (`req.file`). -/
structure UploadedFile where
  originalname : String
deriving DecidableEq

/-- Outcomes the external collaborators and generators supply during one
request: whether `s3.upload`, `s3.deleteObject` and the record-store `save`
succeed, plus `Date.now()`, the `Math.random()` draw and the id the record
store assigns. -/
structure Env where
  uploadOk : Bool
  deleteOk : Bool
  saveOk : Bool
  now : Nat
  rand : Nat
  nextId : Nat
  bucket : String
deriving DecidableEq

/-- `products/${Date.now()}-${file.originalname}` (src/productRoutes.js line 45). -/
def uploadKey (env : Env) (f : UploadedFile) : String :=
  "products/" ++ toString env.now ++ "-" ++ f.originalname

/-- The public URL (`uploadResult.Location`) of a key in the bucket. -/
def s3Url (env : Env) (key : String) : String :=
  "https://" ++ env.bucket ++ ".s3.amazonaws.com/" ++ key

/-- Split a character list at `/` (structural model of `url.split('/')`). -/
def splitSlashAux : List Char → List Char → List (List Char)
  | [], acc => [acc.reverse]
  | c :: cs, acc =>
    if c = '/' then acc.reverse :: splitSlashAux cs [] else splitSlashAux cs (c :: acc)

/-- Join strings with `/` (structural model of `arr.join('/')`). -/
def joinSlash : List String → String
  | [] => ""
  | [s] => s
  | s :: rest => s ++ "/" ++ joinSlash rest

/-- `imageUrl.split('/').slice(-2).join('/')`: the S3 key both delete sites
recover from a stored URL (src/productRoutes.js lines 152 and 224). -/
def keyFromUrl (url : String) : String :=
  let parts := (splitSlashAux url.data []).map String.mk
  joinSlash (parts.drop (parts.length - 2))

/-- An attempted S3 operation, tagged with whether it succeeded. -/
inductive S3Event where
  | upload (key : String) (ok : Bool)
  | deleteObj (key : String) (ok : Bool)
deriving DecidableEq

/-- Replay a trace of S3 operations against the set of stored keys:
a successful upload adds its key, a successful delete removes the first
matching key, failed operations change nothing. -/
def runS3Events : List String → List S3Event → List String
  | keys, [] => keys
  | keys, S3Event.upload k ok :: rest =>
    runS3Events (if ok then keys ++ [k] else keys) rest
  | keys, S3Event.deleteObj k ok :: rest =>
    runS3Events (if ok then keys.eraseP (fun x => x == k) else keys) rest

/-- A persisted product document.  The first block are the paths declared in
`ProductSchema` (src/unnamed/part_001) plus the store-maintained id and
timestamps.  The final three are paths the route handlers assign but the
schema does not declare; under mongoose's default strict mode they are never
persisted, which the model records by keeping them as `Option` fields that
the save path fills via `keepIfDeclared`. -/
structure ProductDoc where
  id : Nat
  itemName : String
  sellPrice : ℚ
  primaryUnit : Option String
  customUnit : Option String
  type : String
  gstEnabled : Bool
  totalPrice : ℚ
  imageUrl : Option String
  createdAt : Nat
  updatedAt : Nat
  gstPercentage : Option ℚ
  gstAmount : Option ℚ
  barcode : Option String
deriving DecidableEq

/-- The paths `ProductSchema` declares (src/unnamed/part_001). -/
def productSchemaPaths : List String :=
  ["itemName", "sellPrice", "primaryUnit", "customUnit", "type",
   "gstEnabled", "totalPrice", "imageUrl"]

/-- Mongoose strict mode (the default): a value set on a path the schema
declares is kept, a value set on any other path is silently dropped. -/
def keepIfDeclared {α : Type} (path : String) (v : α) : Option α :=
  if productSchemaPaths.contains path then some v else none

/-- `Product.findById` over the list-of-documents record store. -/
def findById (store : List ProductDoc) (i : Nat) : Option ProductDoc :=
  store.find? (fun p => p.id == i)

/-- `Product.findByIdAndDelete`: remove the first document with the id and
return its prior state. -/
def findByIdAndDelete (store : List ProductDoc) (i : Nat) :
    Option ProductDoc × List ProductDoc :=
  match findById store i with
  | none => (none, store)
  | some p => (some p, store.eraseP (fun q => q.id == i))

/-- JavaScript truthiness of a stored `imageUrl`: `null`/absent and the empty
string are falsy. -/
def truthyStr : Option String → Bool
  | none => false
  | some s => s != ""

/-- Response of `POST /products`. -/
inductive CreateResult where
  | validationError (errs : List String)
  | createFailed (details : String)
  | created (p : ProductDoc)
deriving DecidableEq

/-- The tail of the create handler after the upload (src/productRoutes.js
lines 78-126): destructure the body, compute GST, generate the barcode,
build the document and save it.  The paths `gstPercentage`, `gstAmount` and
`barcode` go through `keepIfDeclared` because `ProductSchema` does not
declare them. -/
def createRest (env : Env) (store : List ProductDoc) (imageUrl : Option String)
    (b : ReqBody) (evts : List S3Event) :
    CreateResult × List ProductDoc × List S3Event :=
  let sellPriceFloat := b.sellPrice.getD 0
  let g := gstFlag b.gstEnabled
  let barcode := toString env.rand
  let p : ProductDoc := {
    id := env.nextId
    itemName := trimStr (b.itemName.getD "")
    sellPrice := sellPriceFloat
    primaryUnit := b.primaryUnit
    customUnit := b.customUnit
    type := b.type.getD ""
    gstEnabled := g
    totalPrice := totalPrice g sellPriceFloat
    imageUrl := imageUrl
    createdAt := env.now
    updatedAt := env.now
    gstPercentage := keepIfDeclared "gstPercentage" (gstPercentage g)
    gstAmount := keepIfDeclared "gstAmount" (gstAmount g sellPriceFloat)
    barcode := keepIfDeclared "barcode" barcode }
  if env.saveOk then (CreateResult.created p, store ++ [p], evts)
  else (CreateResult.createFailed "record store save failed", store, evts)

/-- `POST /products` (src/productRoutes.js lines 67-127): validate, upload the
image if one was sent (`uploadToS3` throws `Image upload failed` on an S3
error, which the catch block turns into a 400), then compute and save. -/
def createProduct (env : Env) (store : List ProductDoc) (file : Option UploadedFile)
    (b : ReqBody) : CreateResult × List ProductDoc × List S3Event :=
  let errs := validateProduct b
  if errs ≠ [] then (CreateResult.validationError errs, store, [])
  else
    match file with
    | none => createRest env store none b []
    | some f =>
      let key := uploadKey env f
      if env.uploadOk then
        createRest env store (some (s3Url env key)) b [S3Event.upload key true]
      else
        (CreateResult.createFailed "Image upload failed", store, [S3Event.upload key false])

/-- Response of `PUT /products/:id`. -/
inductive UpdateResult where
  | validationError (errs : List String)
  | notFound
  | updateFailed (details : String)
  | updated (p : ProductDoc)
deriving DecidableEq

/-- The field assignments of the update handler (src/productRoutes.js lines
166-191): every submitted field except `itemName` is written, the derived
pricing is recomputed, and the `gstPercentage`/`gstAmount` assignments go
through `keepIfDeclared` because the schema does not declare those paths. -/
def applyUpdate (env : Env) (existingProduct : ProductDoc) (imageUrl : Option String)
    (b : ReqBody) : ProductDoc :=
  let sellPriceFloat := b.sellPrice.getD 0
  let g := gstFlag b.gstEnabled
  { existingProduct with
    sellPrice := sellPriceFloat
    type := b.type.getD ""
    primaryUnit := b.primaryUnit
    customUnit := b.customUnit
    gstEnabled := g
    gstPercentage := keepIfDeclared "gstPercentage" (gstPercentage g)
    gstAmount := keepIfDeclared "gstAmount" (gstAmount g sellPriceFloat)
    totalPrice := totalPrice g sellPriceFloat
    imageUrl := imageUrl
    updatedAt := env.now }

/-- Save step of the update handler: replace the document in the store. -/
def saveUpdate (env : Env) (store : List ProductDoc) (productId : Nat)
    (existingProduct : ProductDoc) (imageUrl : Option String) (b : ReqBody)
    (evts : List S3Event) : UpdateResult × List ProductDoc × List S3Event :=
  let p := applyUpdate env existingProduct imageUrl b
  if env.saveOk then
    (UpdateResult.updated p, store.map (fun q => if q.id == productId then p else q), evts)
  else (UpdateResult.updateFailed "record store save failed", store, evts)

/-- `PUT /products/:id` (src/productRoutes.js lines 130-207): validate first,
then look the record up (404 when absent); when a new image is sent, delete
the old asset if the stored URL is truthy (a failure is only warned about),
then upload the new one (a failure aborts via the catch block with no store
write); finally recompute the fields and save. -/
def updateProduct (env : Env) (store : List ProductDoc) (productId : Nat)
    (file : Option UploadedFile) (b : ReqBody) :
    UpdateResult × List ProductDoc × List S3Event :=
  let errs := validateProduct b
  if errs ≠ [] then (UpdateResult.validationError errs, store, [])
  else
    match findById store productId with
    | none => (UpdateResult.notFound, store, [])
    | some existingProduct =>
      match file with
      | none => saveUpdate env store productId existingProduct existingProduct.imageUrl b []
      | some f =>
        let delEvts :=
          if truthyStr existingProduct.imageUrl then
            [S3Event.deleteObj (keyFromUrl (existingProduct.imageUrl.getD "")) env.deleteOk]
          else []
        let key := uploadKey env f
        if env.uploadOk then
          saveUpdate env store productId existingProduct (some (s3Url env key)) b
            (delEvts ++ [S3Event.upload key true])
        else
          (UpdateResult.updateFailed "Image upload failed", store,
            delEvts ++ [S3Event.upload key false])

/-- Response of `DELETE /products/:id`. -/
inductive DeleteResult where
  | notFound
  | deleted (p : Option ProductDoc)
deriving DecidableEq

/-- `DELETE /products/:id` (src/productRoutes.js lines 210-247): 404 when the
record is absent; otherwise attempt the S3 delete when the stored URL is
truthy (a failure is only warned about) and remove the record either way,
returning its last known state. -/
def deleteProduct (env : Env) (store : List ProductDoc) (productId : Nat) :
    DeleteResult × List ProductDoc × List S3Event :=
  match findById store productId with
  | none => (DeleteResult.notFound, store, [])
  | some product =>
    let evts :=
      if truthyStr product.imageUrl then
        [S3Event.deleteObj (keyFromUrl (product.imageUrl.getD "")) env.deleteOk]
      else []
    let (deletedProduct, store') := findByIdAndDelete store productId
    (DeleteResult.deleted deletedProduct, store', evts)

/-- Insert into a list kept in descending `createdAt` order. -/
def insertByCreatedAtDesc (p : ProductDoc) : List ProductDoc → List ProductDoc
  | [] => [p]
  | q :: qs =>
    if p.createdAt ≤ q.createdAt then q :: insertByCreatedAtDesc p qs
    else p :: q :: qs

/-- Sort by `createdAt` descending (insertion sort). -/
def sortByCreatedAtDesc : List ProductDoc → List ProductDoc
  | [] => []
  | p :: ps => insertByCreatedAtDesc p (sortByCreatedAtDesc ps)

/-- `GET /products` (src/productRoutes.js lines 250-260):
`Product.find().sort({ createdAt: -1 })`. -/
def listProducts (store : List ProductDoc) : List ProductDoc :=
  sortByCreatedAtDesc store

/-- Extract the document from a successful create response. -/
def createdProduct : CreateResult → Option ProductDoc
  | CreateResult.created p => some p
  | _ => none

/-! Concrete fixtures used to instantiate the theorems below. -/

/-- An environment in which every collaborator succeeds. -/
def okEnv : Env :=
  { uploadOk := true, deleteOk := true, saveOk := true, now := 1000,
    rand := 123456789, nextId := 1, bucket := "bkt" }

/-- Like `okEnv` but the record-store save fails. -/
def saveFailEnv : Env := { okEnv with saveOk := false }

/-- Like `okEnv` but both S3 operations fail. -/
def upFailEnv : Env := { okEnv with uploadOk := false, deleteOk := false }

/-- Like `okEnv` but `s3.deleteObject` fails. -/
def delFailEnv : Env := { okEnv with deleteOk := false }

/-- A fully valid body with GST enabled. -/
def bodyT : ReqBody :=
  { itemName := some "Tea", sellPrice := some 100, type := some "Veg",
    primaryUnit := none, customUnit := none, gstEnabled := some "true" }

/-- A body missing `itemName` (everything else valid). -/
def invalidBody : ReqBody :=
  { itemName := none, sellPrice := some 100, type := some "Veg",
    primaryUnit := none, customUnit := none, gstEnabled := none }

/-- A body with `type` unspecified (everything else valid). -/
def noTypeBody : ReqBody :=
  { itemName := some "Tea", sellPrice := some 100, type := none,
    primaryUnit := none, customUnit := none, gstEnabled := none }

/-- A body whose `type` is outside the closed set. -/
def badTypeBody : ReqBody :=
  { itemName := some "Tea", sellPrice := some 100, type := some "Soup",
    primaryUnit := none, customUnit := none, gstEnabled := none }

/-- A body submitting `gstEnabled` as `"TRUE"` rather than `"true"`. -/
def bodyTRUE : ReqBody :=
  { itemName := some "Tea", sellPrice := some 100, type := some "Veg",
    primaryUnit := none, customUnit := none, gstEnabled := some "TRUE" }

/-- An uploaded image file. -/
def imgFile : UploadedFile := { originalname := "a.png" }

/-- A stored image URL. -/
def oldUrl : String := "https://bkt.s3.amazonaws.com/products/old.png"

/-- An existing stored product with an image. -/
def p0 : ProductDoc :=
  { id := 7, itemName := "Tea", sellPrice := 50, primaryUnit := none,
    customUnit := none, type := "Veg", gstEnabled := false, totalPrice := 50,
    imageUrl := some oldUrl, createdAt := 5, updatedAt := 5,
    gstPercentage := none, gstAmount := none, barcode := none }

/-- C2: for every `sellPrice ≥ 0` the handlers' GST computation yields
`gstPercentage = 5`, `gstAmount = round2 (sellPrice * 5%)` and
`totalPrice = round2 (sellPrice + gstAmount)` when GST is enabled, and
`gstPercentage = 0`, `gstAmount = 0`, `totalPrice = round2 sellPrice` when it
is disabled. -/
theorem gst_pricing_formulas (sp : ℚ) (_hsp : 0 ≤ sp) :
    (gstPercentage true = 5 ∧ gstAmount true sp = round2 (sp * (5 / 100)) ∧
      totalPrice true sp = round2 (sp + gstAmount true sp)) ∧
    (gstPercentage false = 0 ∧ gstAmount false sp = 0 ∧
      totalPrice false sp = round2 sp) := by
  refine ⟨⟨rfl, rfl, rfl⟩, rfl, rfl, ?_⟩
  simp [totalPrice, gstAmount]

/-- Instance of `gst_pricing_formulas` at `sellPrice = 100`: GST 5.00, total
105.00. -/
theorem gst_pricing_formulas_witness :
    (0 : ℚ) ≤ 100 ∧ gstAmount true 100 = 5 ∧ totalPrice true 100 = 105 := by
  have h := gst_pricing_formulas 100 (by norm_num)
  refine ⟨by norm_num, ?_, ?_⟩
  · rw [h.1.2.1]; norm_num [round2, round_eq]
  · rw [h.1.2.2, h.1.2.1]; norm_num [round2, round_eq]

/-- C1: a successful create at a valid input returns the persisted record,
but that record carries no `gstPercentage`, `gstAmount` or `barcode`: the
handler computes them, yet `ProductSchema` does not declare those paths and
mongoose strict mode drops them on save.  Of the derived fields only
`totalPrice` (= 105 here) is present, so the claim's "all derived fields
present" fails on the code. -/
theorem create_drops_derived_fields :
    (createdProduct (createProduct okEnv [] none bodyT).1).map ProductDoc.gstPercentage
      = some none ∧
    (createdProduct (createProduct okEnv [] none bodyT).1).map ProductDoc.gstAmount
      = some none ∧
    (createdProduct (createProduct okEnv [] none bodyT).1).map ProductDoc.barcode
      = some none ∧
    (createdProduct (createProduct okEnv [] none bodyT).1).map ProductDoc.gstEnabled
      = some true ∧
    (createdProduct (createProduct okEnv [] none bodyT).1).map ProductDoc.totalPrice
      = some 105 := by
  refine ⟨by decide, by decide, by decide, by decide, ?_⟩
  have h1 : (createdProduct (createProduct okEnv [] none bodyT).1).map ProductDoc.totalPrice
      = some (totalPrice true 100) := rfl
  rw [h1]
  norm_num [totalPrice, gstAmount, round2, round_eq]

/-- C3 counterexample: update with invalid fields (no `itemName`) targeting an
id with no record returns the 400 validation error, not the 404, because the
handler checks `validationResult` before `findById`. -/
theorem update_invalid_fields_beat_404 :
    updateProduct okEnv [] 1 none invalidBody =
      (UpdateResult.validationError ["Item name is required"], [], []) ∧
    UpdateResult.validationError ["Item name is required"] ≠ UpdateResult.notFound := by
  exact ⟨by decide, by decide⟩

/-- C3 (amended): when the submitted fields pass validation, an update
targeting an id with no record fails with the 404 not-found response, with no
record-store or asset-store operation. -/
theorem update_not_found (env : Env) (store : List ProductDoc) (i : Nat)
    (file : Option UploadedFile) (b : ReqBody)
    (hv : validateProduct b = []) (hf : findById store i = none) :
    updateProduct env store i file b = (UpdateResult.notFound, store, []) := by
  unfold updateProduct
  simp [hv, hf]

/-- Instance of `update_not_found` on an empty store with a valid body. -/
theorem update_not_found_witness :
    validateProduct bodyT = [] ∧ findById [] 1 = none ∧
    updateProduct okEnv [] 1 none bodyT = (UpdateResult.notFound, [], []) :=
  ⟨by decide, by decide, update_not_found okEnv [] 1 none bodyT (by decide) (by decide)⟩

/-- C4 counterexample: a create whose `type` is unspecified (all other fields
valid) does not succeed with the default Veg: the `type` validator has no
`.optional()`, so the request is rejected with the validation error and no
record is created. -/
theorem create_missing_type_rejected :
    createProduct okEnv [] none noTypeBody =
      (CreateResult.validationError ["Invalid product type"], [], []) := by decide

/-- C4 (amended): `type` is effectively required by the route: a create whose
`type` is absent or outside the closed set fails with the validation error —
naming the type violation — before any asset or record write; the schema
default Veg is unreachable through this route. -/
theorem create_type_validation (env : Env) (store : List ProductDoc)
    (file : Option UploadedFile) (b : ReqBody)
    (ht : ∀ t, b.type = some t → productTypes.contains t = false) :
    createProduct env store file b =
      (CreateResult.validationError (validateProduct b), store, []) ∧
    "Invalid product type" ∈ validateProduct b := by
  have hmem : "Invalid product type" ∈ validateProduct b := by
    unfold validateProduct
    rcases htype : b.type with _ | t
    · simp
    · have h1 : t ∉ productTypes := by simpa using ht t htype
      simp [h1]
  refine ⟨?_, hmem⟩
  have hne : validateProduct b ≠ [] := by
    intro h
    rw [h] at hmem
    exact List.not_mem_nil _ hmem
  unfold createProduct
  simp [hne]

/-- Instance of `create_type_validation` at a body with `type = "Soup"`. -/
theorem create_type_validation_witness :
    createProduct okEnv [] none badTypeBody =
      (CreateResult.validationError (validateProduct badTypeBody), [], []) ∧
    "Invalid product type" ∈ validateProduct badTypeBody :=
  create_type_validation okEnv [] none badTypeBody
    (by intro t ht; simp [badTypeBody] at ht; subst ht; decide)

/-- C5 counterexample: a create in which the image upload succeeds and the
record-store save then fails does fail without creating a record, but the
catch block issues no compensating delete: the only S3 operation in the trace
is the upload, and replaying the trace leaves the freshly uploaded key in the
object store as an orphan. -/
theorem create_save_failure_leaves_orphan :
    createProduct saveFailEnv [] (some imgFile) bodyT =
      (CreateResult.createFailed "record store save failed", [],
        [S3Event.upload "products/1000-a.png" true]) ∧
    runS3Events [] [S3Event.upload "products/1000-a.png" true]
      = ["products/1000-a.png"] := by
  exact ⟨by decide, by decide⟩

/-- C5 (amended): for every create in which the upload succeeds and the save
fails, the operation fails and no record is created, but the uploaded asset
is not rolled back: the trace holds the upload and no delete, so the key
stays in any object-store state the trace is replayed on. -/
theorem create_no_rollback_on_save_failure (env : Env) (store : List ProductDoc)
    (f : UploadedFile) (b : ReqBody) (ks : List String)
    (hv : validateProduct b = []) (hu : env.uploadOk = true)
    (hs : env.saveOk = false) :
    createProduct env store (some f) b =
      (CreateResult.createFailed "record store save failed", store,
        [S3Event.upload (uploadKey env f) true]) ∧
    runS3Events ks [S3Event.upload (uploadKey env f) true]
      = ks ++ [uploadKey env f] := by
  constructor
  · unfold createProduct createRest
    simp [hv, hu, hs]
  · simp [runS3Events]

/-- Instance of `create_no_rollback_on_save_failure` against an empty object
store. -/
theorem create_no_rollback_on_save_failure_witness :
    createProduct saveFailEnv [] (some imgFile) bodyT =
      (CreateResult.createFailed "record store save failed", [],
        [S3Event.upload (uploadKey saveFailEnv imgFile) true]) ∧
    runS3Events [] [S3Event.upload (uploadKey saveFailEnv imgFile) true]
      = [] ++ [uploadKey saveFailEnv imgFile] :=
  create_no_rollback_on_save_failure saveFailEnv [] imgFile bodyT []
    (by decide) (by decide) (by decide)

/-- C6: updating an existing record whose stored `imageUrl` is non-empty with
a new image first attempts the delete of the old asset and then the upload of
the new one (in that order, whatever their outcomes); an upload failure
aborts the operation with the image-upload error and no record-store write,
while a delete failure does not abort: with the upload and save succeeding
the record is still updated. -/
theorem update_image_replacement (env : Env) (store : List ProductDoc) (i : Nat)
    (f : UploadedFile) (b : ReqBody) (p : ProductDoc) (url : String)
    (hv : validateProduct b = []) (hp : findById store i = some p)
    (hurl : p.imageUrl = some url) (hne : url ≠ "") :
    (updateProduct env store i (some f) b).2.2 =
      [S3Event.deleteObj (keyFromUrl url) env.deleteOk,
       S3Event.upload (uploadKey env f) env.uploadOk] ∧
    (env.uploadOk = false →
      updateProduct env store i (some f) b =
        (UpdateResult.updateFailed "Image upload failed", store,
         [S3Event.deleteObj (keyFromUrl url) env.deleteOk,
          S3Event.upload (uploadKey env f) false])) ∧
    (env.uploadOk = true → env.saveOk = true →
      (updateProduct env store i (some f) b).1 =
        UpdateResult.updated (applyUpdate env p (some (s3Url env (uploadKey env f))) b)) := by
  unfold updateProduct saveUpdate
  cases hu : env.uploadOk <;> cases hs : env.saveOk <;>
    simp [hv, hp, hurl, truthyStr, hne, hu, hs]

/-- Instance of `update_image_replacement` where both S3 operations fail: the
old-asset delete is attempted first, the failed upload aborts, the store is
untouched. -/
theorem update_image_replacement_witness :
    updateProduct upFailEnv [p0] 7 (some imgFile) bodyT =
      (UpdateResult.updateFailed "Image upload failed", [p0],
       [S3Event.deleteObj (keyFromUrl oldUrl) false,
        S3Event.upload (uploadKey upFailEnv imgFile) false]) :=
  (update_image_replacement upFailEnv [p0] 7 imgFile bodyT p0 oldUrl
    (by decide) (by decide) (by decide) (by decide)).2.1 (by decide)

/-- C7: delete returns the 404 not-found response when no record has the id;
when the record exists and its stored `imageUrl` is truthy, the asset delete
is attempted and — whatever its outcome — the record is removed from the
store and its last known state is returned. -/
theorem delete_product_behavior (env : Env) (store : List ProductDoc) (i : Nat) :
    (findById store i = none →
      deleteProduct env store i = (DeleteResult.notFound, store, [])) ∧
    (∀ p, findById store i = some p → truthyStr p.imageUrl = true →
      deleteProduct env store i =
        (DeleteResult.deleted (some p), store.eraseP (fun q => q.id == i),
         [S3Event.deleteObj (keyFromUrl (p.imageUrl.getD "")) env.deleteOk])) := by
  constructor
  · intro h
    unfold deleteProduct
    simp [h]
  · intro p hp htr
    unfold deleteProduct findByIdAndDelete
    simp [hp, htr]

/-- Instances of `delete_product_behavior`: 404 on an empty store, and — with
the S3 delete failing — removal of the stored record with its state
returned. -/
theorem delete_product_behavior_witness :
    deleteProduct okEnv [] 3 = (DeleteResult.notFound, [], []) ∧
    deleteProduct delFailEnv [p0] 7 =
      (DeleteResult.deleted (some p0), [],
       [S3Event.deleteObj (keyFromUrl oldUrl) false]) := by
  constructor
  · exact (delete_product_behavior okEnv [] 3).1 (by decide)
  · exact (delete_product_behavior delFailEnv [p0] 7).2 p0 (by decide) (by decide)

/-- C8: list sorts the store by `createdAt` descending, so records created at
strictly increasing times A then B then C are listed as [C, B, A]. -/
theorem list_orders_by_createdAt_desc (a b c : ProductDoc)
    (hab : a.createdAt < b.createdAt) (hbc : b.createdAt < c.createdAt) :
    listProducts [a, b, c] = [c, b, a] := by
  have h1 : a.createdAt ≤ b.createdAt := le_of_lt hab
  have h2 : b.createdAt ≤ c.createdAt := le_of_lt hbc
  have h3 : a.createdAt ≤ c.createdAt := le_of_lt (lt_trans hab hbc)
  simp [listProducts, sortByCreatedAtDesc, insertByCreatedAtDesc, h1, h2, h3]

/-- Instance of `list_orders_by_createdAt_desc` at creation times 5 < 6 < 7. -/
theorem list_orders_by_createdAt_desc_witness :
    listProducts [p0, { p0 with id := 8, createdAt := 6 },
      { p0 with id := 9, createdAt := 7 }] =
    [{ p0 with id := 9, createdAt := 7 }, { p0 with id := 8, createdAt := 6 }, p0] :=
  list_orders_by_createdAt_desc p0 { p0 with id := 8, createdAt := 6 }
    { p0 with id := 9, createdAt := 7 } (by decide) (by decide)

/-- `gstPercentage` is not a declared schema path, so its value is dropped. -/
theorem keepIfDeclared_gstPercentage (v : ℚ) :
    keepIfDeclared "gstPercentage" v = none := rfl

/-- `gstAmount` is not a declared schema path, so its value is dropped. -/
theorem keepIfDeclared_gstAmount (v : ℚ) :
    keepIfDeclared "gstAmount" v = none := rfl

/-- C9: the update handler assigns every submitted field except `itemName`,
so a record that a successful update returns keeps the `itemName` (and the
id, `createdAt` and barcode) of the record found for the id. -/
theorem update_preserves_itemName (env : Env) (store : List ProductDoc) (i : Nat)
    (file : Option UploadedFile) (b : ReqBody) (p p' : ProductDoc)
    (store' : List ProductDoc) (evts : List S3Event)
    (hp : findById store i = some p)
    (h : updateProduct env store i file b = (UpdateResult.updated p', store', evts)) :
    p'.itemName = p.itemName ∧ p'.id = p.id ∧ p'.createdAt = p.createdAt ∧
    p'.barcode = p.barcode := by
  unfold updateProduct saveUpdate at h
  by_cases hv : validateProduct b = []
  · cases file with
    | none =>
      cases hs : env.saveOk <;> simp [hv, hp, hs] at h
      obtain ⟨h1, -, -⟩ := h
      subst h1
      simp [applyUpdate]
    | some f =>
      cases hu : env.uploadOk <;> cases hs : env.saveOk <;>
        simp [hv, hp, hu, hs] at h
      obtain ⟨h1, -, -⟩ := h
      subst h1
      simp [applyUpdate]
  · simp [hv] at h

/-- Instance of `update_preserves_itemName`: an update of `p0` (whose body
carries a fresh `itemName`) leaves the stored `itemName` unchanged. -/
theorem update_preserves_itemName_witness :
    updateProduct okEnv [p0] 7 none bodyT =
      (UpdateResult.updated (applyUpdate okEnv p0 p0.imageUrl bodyT),
       [applyUpdate okEnv p0 p0.imageUrl bodyT], []) ∧
    (applyUpdate okEnv p0 p0.imageUrl bodyT).itemName = p0.itemName := by
  constructor
  · rfl
  · exact (update_preserves_itemName okEnv [p0] 7 none bodyT p0
      (applyUpdate okEnv p0 p0.imageUrl bodyT)
      [applyUpdate okEnv p0 p0.imageUrl bodyT] [] (by decide) rfl).1

/-- C10 counterexample: with `gstEnabled` submitted as `"TRUE"`, the created
record does have `gstEnabled = false`, but it does not carry
`gstAmount = 0` (nor `gstPercentage = 0`): those paths are not declared by
the schema and are absent from the persisted record. -/
theorem gst_fields_absent_for_non_true_flag :
    (createdProduct (createProduct okEnv [] none bodyTRUE).1).map ProductDoc.gstEnabled
      = some false ∧
    (createdProduct (createProduct okEnv [] none bodyTRUE).1).map ProductDoc.gstAmount
      = some none ∧
    (createdProduct (createProduct okEnv [] none bodyTRUE).1).map ProductDoc.gstAmount
      ≠ some (some 0) ∧
    (createdProduct (createProduct okEnv [] none bodyTRUE).1).map ProductDoc.gstPercentage
      = some none := by
  exact ⟨by decide, by decide, by decide, by decide⟩

/-- C10 (amended): tax is applied only when the submitted `gstEnabled` is
exactly the string "true": for any other value the computation yields
`gstPercentage 0` and `gstAmount 0`, and a record a successful create or
update returns has `gstEnabled = false` and `totalPrice = round2 sellPrice`
(the zero `gstPercentage`/`gstAmount` are computed but not persisted, the
schema not declaring those paths). -/
theorem gst_requires_exact_true_string (env : Env) (store : List ProductDoc)
    (b : ReqBody) (sp : ℚ)
    (hg : b.gstEnabled ≠ some "true") (hsp : b.sellPrice = some sp) :
    gstFlag b.gstEnabled = false ∧
    gstPercentage (gstFlag b.gstEnabled) = 0 ∧
    gstAmount (gstFlag b.gstEnabled) sp = 0 ∧
    (∀ p, (createProduct env store none b).1 = CreateResult.created p →
      p.gstEnabled = false ∧ p.totalPrice = round2 sp ∧
      p.gstAmount = none ∧ p.gstPercentage = none) ∧
    (∀ i p' store' evts,
      updateProduct env store i none b = (UpdateResult.updated p', store', evts) →
      p'.gstEnabled = false ∧ p'.totalPrice = round2 sp ∧ p'.gstAmount = none) := by
  have hflag : gstFlag b.gstEnabled = false := by
    simp [gstFlag, hg]
  refine ⟨hflag, by rw [hflag]; rfl, by rw [hflag]; rfl, ?_, ?_⟩
  · intro p hcp
    unfold createProduct createRest at hcp
    by_cases hv : validateProduct b = []
    · cases hs : env.saveOk <;> simp [hv, hs] at hcp
      subst hcp
      refine ⟨hflag, ?_, keepIfDeclared_gstAmount (gstAmount (gstFlag b.gstEnabled) (b.sellPrice.getD 0)), keepIfDeclared_gstPercentage (gstPercentage (gstFlag b.gstEnabled))⟩
      simp [hflag, hsp, totalPrice, gstAmount]
    · simp [hv] at hcp
  · intro i p' store' evts h
    unfold updateProduct saveUpdate at h
    by_cases hv : validateProduct b = []
    · cases hf : findById store i with
      | none => simp [hv, hf] at h
      | some q =>
        cases hs : env.saveOk <;> simp [hv, hf, hs] at h
        obtain ⟨h1, -, -⟩ := h
        subst h1
        refine ⟨?_, ?_, ?_⟩
        · simp [applyUpdate, hflag]
        · simp [applyUpdate, hflag, hsp, totalPrice, gstAmount]
        · simp [applyUpdate, keepIfDeclared_gstAmount]
    · simp [hv] at h

/-- Instance of `gst_requires_exact_true_string` at `gstEnabled = "TRUE"`. -/
theorem gst_requires_exact_true_string_witness :
    gstFlag bodyTRUE.gstEnabled = false ∧
    gstAmount (gstFlag bodyTRUE.gstEnabled) 100 = 0 :=
  ⟨(gst_requires_exact_true_string okEnv [] bodyTRUE 100 (by decide) (by decide)).1,
   (gst_requires_exact_true_string okEnv [] bodyTRUE 100 (by decide) (by decide)).2.2.1⟩

end RestaurantProducts
